import Mathlib

/-!
Verification of the esxi-mcp-server orchestration layer.

This file gives a shallow embedding, in Lean 4, of the parts of the
esxi-mcp-server Python sources that the specification talks about:

* the task-completion model (`wait_for_task` in
  `esxi_mcp_server/vmware_manager.py`, and the inline busy-wait loops that
  every mutating handler actually uses),
* the snapshot tree navigator (`_find_snapshot_by_name`,
  `_collect_snapshots`),
* startup resource resolution (`VMwareManager._connect_vcenter`),
* the VM power / snapshot handlers (`power_on_vm`, `power_off_vm`,
  `list_snapshots`, `remove_all_snapshots`),
* host utilization math (`get_host_performance`),
* the tool dispatch gateway (`call_tool_handler` in
  `esxi_mcp_server/mcp_server.py`) and the authentication gate
  (`ToolHandlers._check_auth` in `esxi_mcp_server/tools.py`).

External effects (pyVmomi remote calls) are modelled by explicit data:
the remote task is a trace of observed `TaskInfo` values, the inventory is
a value of type `InventoryContent`, and each mutating handler reports the
list of platform tasks it submitted.  Raised Python exceptions are
modelled with `Except String`.
-/

namespace EsxiMcp

/-- Python truthiness of an optional string: `None` and `""` are falsy.
Used wherever the source writes `if self.config.<field>:`. -/
def optStrTruthy : Option String → Bool
  | none => false
  | some s => !s.isEmpty

/-! ## Task model

`vim.TaskInfo.State` has four states; the source only ever tests
membership in `[success, error]`. A remote task is observed as a trace:
`trace t` is the `task.info` value seen at the t-th poll. -/

/-- States of a vSphere task (`vim.TaskInfo.State`). -/
inductive TaskState where
  | queued
  | running
  | success
  | error
deriving DecidableEq

/-- The `task.info` record, restricted to the fields the source reads:
`state`, `error` (as its string rendering) and `result` (as its string
rendering). -/
structure TaskInfo where
  state : TaskState
  errorMsg : Option String
  result : Option String
deriving DecidableEq

/-- A remote task observed over time: the `task.info` value returned by
the t-th poll of the task handle. -/
def TaskTrace : Type := Nat → TaskInfo

/-- The loop guard of every wait loop in the source:
`task.info.state not in [vim.TaskInfo.State.success, vim.TaskInfo.State.error]`
negated, i.e. whether the state is terminal. -/
def isTerminal : TaskState → Bool
  | TaskState.success => true
  | TaskState.error => true
  | _ => false

/-- Outcome of `VMwareManager.wait_for_task`: the three result
dictionaries it can return, keyed by their `"status"` field. -/
inductive WaitOutcome where
  | succeeded (result : Option String)
  | failed (errorMsg : Option String)
  | timedOut (lastState : TaskState)
deriving DecidableEq

/-- The `"status"` field of the dictionary `wait_for_task` returns. -/
def WaitOutcome.status : WaitOutcome → String
  | WaitOutcome.succeeded _ => "success"
  | WaitOutcome.failed _ => "error"
  | WaitOutcome.timedOut _ => "timeout"

/-- The code after the polling loop of `wait_for_task`: success yields the
`"status": "success"` dictionary, otherwise the `"status": "error"` one
(carrying the task error verbatim). -/
def finishTask (info : TaskInfo) : WaitOutcome :=
  if info.state = TaskState.success then WaitOutcome.succeeded info.result
  else WaitOutcome.failed info.errorMsg

/-- The polling loop of `VMwareManager.wait_for_task`.  The loop polls at
one-second intervals (`time.sleep(1)`), so after t iterations the elapsed
time is t seconds and the `time.time() - start_time > timeout` test reads
`timeout < t`.  The loop runs at most `timeout + 2` iterations (the test
fires at `t = timeout + 1`), so `remaining`, initialized to
`timeout + 2`, is never exhausted; the `remaining = 0` branch is
unreachable and only makes the recursion structural. -/
def waitForTaskAux (trace : TaskTrace) (timeout : Nat) : Nat → Nat → WaitOutcome
  | 0, t => WaitOutcome.timedOut (trace t).state
  | remaining + 1, t =>
    if isTerminal (trace t).state then finishTask (trace t)
    else if timeout < t then WaitOutcome.timedOut (trace t).state
    else waitForTaskAux trace timeout remaining (t + 1)

/-- Embedding of `VMwareManager.wait_for_task` (vmware_manager.py
lines 687-711): poll the task until terminal or until the elapsed time
exceeds `timeout`, returning a dictionary in every case (the function has
no raise statement). -/
def wait_for_task (trace : TaskTrace) (timeout : Nat) : WaitOutcome :=
  waitForTaskAux trace timeout (timeout + 2) 0

/-- The inline wait loop shared verbatim by all ten mutating handlers:
`while task.info.state not in [success, error]: continue`.  The loop has
no timeout, so it is observed through a fuel bound: `none` means the loop
is still spinning after `fuel` polls. -/
def inlineTaskWaitAux (trace : TaskTrace) : Nat → Nat → Option TaskInfo
  | 0, _ => none
  | fuel + 1, t =>
    if isTerminal (trace t).state then some (trace t)
    else inlineTaskWaitAux trace fuel (t + 1)

/-- The inline busy-wait of a mutating handler, observed for `fuel`
polls starting from the first observation of the task. -/
def inlineTaskWait (trace : TaskTrace) (fuel : Nat) : Option TaskInfo :=
  inlineTaskWaitAux trace fuel 0

/-- A task that never leaves the `running` state. -/
def constRunningTrace : TaskTrace :=
  fun _ => { state := TaskState.running, errorMsg := none, result := none }

/-! ## Snapshot tree navigator

A snapshot is a node of a per-VM tree (`vim.vm.SnapshotTree`): the source
reads `name`, `description`, `createTime`, `state` and the ordered
`childSnapshotList`.  `createTime` and `state` are only ever rendered with
`str(...)`, so they are embedded as strings. -/

/-- Node of the snapshot tree (`vim.vm.SnapshotTree`). -/
inductive SnapshotNode where
  | mk (name : String) (description : String) (createTime : String)
       (state : String) (children : List SnapshotNode)

/-- The `name` attribute of a snapshot tree node. -/
def SnapshotNode.name : SnapshotNode → String
  | SnapshotNode.mk n _ _ _ _ => n

/-- The `childSnapshotList` attribute of a snapshot tree node. -/
def SnapshotNode.children : SnapshotNode → List SnapshotNode
  | SnapshotNode.mk _ _ _ _ ch => ch

/-- Embedding of `VMwareManager._find_snapshot_by_name`
(vmware_manager.py lines 804-813): for each node of the forest in order,
return the node if its name matches, otherwise search its children
recursively, otherwise continue with the remaining siblings. -/
def findSnapshotByName (nm : String) : List SnapshotNode → Option SnapshotNode
  | [] => none
  | SnapshotNode.mk n d ct st ch :: rest =>
    if n == nm then some (SnapshotNode.mk n d ct st ch)
    else
      match findSnapshotByName nm ch with
      | some r => some r
      | none => findSnapshotByName nm rest

/-- One entry of the list built by `VMwareManager._collect_snapshots`. -/
structure SnapInfo where
  name : String
  description : String
  create_time : String
  state : String
  level : Nat
deriving DecidableEq

/-- Embedding of `VMwareManager._collect_snapshots` (vmware_manager.py
lines 815-827): append the info record of each node, then recurse into
its children at `level + 1`, then continue with the remaining siblings at
the same level. -/
def collectSnapshots : List SnapshotNode → Nat → List SnapInfo
  | [], _ => []
  | SnapshotNode.mk n d ct st ch :: rest, level =>
    { name := n, description := d, create_time := ct, state := st, level := level }
    :: (collectSnapshots ch (level + 1) ++ collectSnapshots rest level)

/-- The depth-first pre-order sequence of the nodes of a snapshot forest.
This is the specification-side traversal that the navigator theorems
compare the source functions against. -/
def preorderList : List SnapshotNode → List SnapshotNode
  | [] => []
  | SnapshotNode.mk n d ct st ch :: rest =>
    SnapshotNode.mk n d ct st ch :: (preorderList ch ++ preorderList rest)

/-- The depth-first pre-order sequence of the nodes of a snapshot forest,
each annotated with its depth from the root level. -/
def preorderDepth : List SnapshotNode → Nat → List (SnapshotNode × Nat)
  | [], _ => []
  | SnapshotNode.mk n d ct st ch :: rest, depth =>
    (SnapshotNode.mk n d ct st ch, depth)
    :: (preorderDepth ch (depth + 1) ++ preorderDepth rest depth)

/-- The info record `_collect_snapshots` builds for one node at one level. -/
def snapInfoOf : SnapshotNode → Nat → SnapInfo
  | SnapshotNode.mk n d ct st _, level =>
    { name := n, description := d, create_time := ct, state := st, level := level }

/-! ## Configuration and inventory

The fields of `Config` that `_connect_vcenter` and `_check_auth` read.
The config module itself is not under src/; its field set is read off the
accesses in vmware_manager.py and tools.py.  Optional string fields are
`Option String`, and every `if self.config.<field>:` test goes through
`optStrTruthy` (Python treats both `None` and `""` as false). -/

/-- Configuration record, restricted to the fields read by the embedded
code paths. -/
structure Config where
  datacenter : Option String
  cluster : Option String
  datastore : Option String
  network : Option String
  api_key : Option String
deriving DecidableEq

/-- A datastore, with the one summary field the resolution code reads
(`ds.summary.freeSpace`, in bytes). -/
structure Datastore where
  name : String
  freeSpace : Nat
deriving DecidableEq

/-- A compute resource in the datacenter host folder.
`vim.ClusterComputeResource` is a subclass of `vim.ComputeResource`, so a
cluster is a compute resource with `isCluster = true`.  `resourcePool` is
the name of the resource pool the source stores. -/
structure ComputeRes where
  name : String
  resourcePool : String
  isCluster : Bool
deriving DecidableEq

/-- An entry of `datacenter.hostFolder.childEntity`: either a compute
resource (cluster or standalone host) or some other entity (a folder). -/
inductive HostFolderEntity where
  | compute (c : ComputeRes)
  | otherEntity (name : String)
deriving DecidableEq

/-- The `isinstance(_, vim.ComputeResource)` test on a host folder entry. -/
def asCompute : HostFolderEntity → Option ComputeRes
  | HostFolderEntity.compute c => some c
  | _ => none

/-- An entry of `datacenter.datastoreFolder.childEntity`: either a
datastore or some other entity. -/
inductive DatastoreFolderEntity where
  | ds (d : Datastore)
  | otherEntity (name : String)
deriving DecidableEq

/-- The `isinstance(_, vim.Datastore)` test on a datastore folder entry. -/
def asDatastore : DatastoreFolderEntity → Option Datastore
  | DatastoreFolderEntity.ds d => some d
  | _ => none

/-- A network object (`vim.Network` or a distributed virtual portgroup);
the resolution code only reads its name. -/
structure NetworkObj where
  name : String
  isDistributedPortgroup : Bool
deriving DecidableEq

/-- A datacenter with the three child folders the resolution code reads. -/
structure Datacenter where
  name : String
  hostFolderChildren : List HostFolderEntity
  datastoreFolderChildren : List DatastoreFolderEntity
  networkFolderChildren : List NetworkObj
deriving DecidableEq

/-- An entry of `content.rootFolder.childEntity`: either a datacenter or
some other entity. -/
inductive RootFolderEntity where
  | dc (d : Datacenter)
  | otherEntity (name : String)
deriving DecidableEq

/-- The `isinstance(_, vim.Datacenter)` test on a root folder entry. -/
def asDatacenter : RootFolderEntity → Option Datacenter
  | RootFolderEntity.dc d => some d
  | _ => none

/-- The retrieved content root: the root folder children the resolution
code enumerates. -/
structure InventoryContent where
  rootFolderChildren : List RootFolderEntity
deriving DecidableEq

/-- The resolved working set `_connect_vcenter` stores on the manager
(`datacenter_obj`, `resource_pool`, `datastore_obj`, `network_obj`). -/
structure ResourceScope where
  datacenter : Datacenter
  resourcePool : String
  datastore : Datastore
  network : Option NetworkObj
deriving DecidableEq

/-- The datacenter block of `_connect_vcenter` (vmware_manager.py
lines 53-66): with a configured name, take the first datacenter with an
exactly equal name or fail; otherwise take the first datacenter; in
either case a missing result is a raised error. -/
def resolveDatacenter (cfg : Config) (content : InventoryContent) :
    Except String Datacenter :=
  let dcs := content.rootFolderChildren.filterMap asDatacenter
  match cfg.datacenter with
  | some nm =>
    if nm = "" then
      match dcs.head? with
      | some d => Except.ok d
      | none => Except.error "No datacenter object found"
    else
      match dcs.find? (fun d => d.name == nm) with
      | some d => Except.ok d
      | none => Except.error ("Datacenter " ++ nm ++ " not found")
  | none =>
    match dcs.head? with
    | some d => Except.ok d
    | none => Except.error "No datacenter object found"

/-- The default branch of the compute-resource block: the first
`vim.ComputeResource` of the host folder, or the
"No compute resource" error. -/
def defaultComputeResource (dc : Datacenter) : Except String ComputeRes :=
  match (dc.hostFolderChildren.filterMap asCompute).head? with
  | some c => Except.ok c
  | none => Except.error "No compute resource (cluster or host) found"

/-- The compute-resource block of `_connect_vcenter` (vmware_manager.py
lines 68-86): with a configured cluster name, take the first
`vim.ClusterComputeResource` with an exactly equal name or fail;
otherwise the first compute resource. -/
def resolveComputeResource (cfg : Config) (dc : Datacenter) :
    Except String ComputeRes :=
  match cfg.cluster with
  | some nm =>
    if nm = "" then defaultComputeResource dc
    else
      match (dc.hostFolderChildren.filterMap asCompute).find?
          (fun c => c.isCluster && c.name == nm) with
      | some c => Except.ok c
      | none => Except.error ("Cluster " ++ nm ++ " not found")
  | none => defaultComputeResource dc

/-- One comparison step of Python
`max(datastores, key=lambda ds: ds.summary.freeSpace)`: the candidate
replaces the current maximum only when its key is strictly greater, so
`max` keeps the earliest element on ties. -/
def pickFreer (best x : Datastore) : Datastore :=
  if x.freeSpace > best.freeSpace then x else best

/-- Python `max(datastores, key=lambda ds: ds.summary.freeSpace)`:
the first datastore of maximal free space, or `none` on the empty list. -/
def maxByFreeSpace : List Datastore → Option Datastore
  | [] => none
  | d :: rest => some (rest.foldl pickFreer d)

/-- The default branch of the datastore block: the datastore of maximal
free space among the datacenter datastores, or the "No available
datastore" error on an empty list. -/
def defaultDatastore (dc : Datacenter) : Except String Datastore :=
  match maxByFreeSpace (dc.datastoreFolderChildren.filterMap asDatastore) with
  | some d => Except.ok d
  | none => Except.error "No available datastore found in the datacenter"

/-- The datastore block of `_connect_vcenter` (vmware_manager.py
lines 88-103): with a configured name, take the first datastore with an
exactly equal name or fail; otherwise the datastore of maximal free
space. -/
def resolveDatastore (cfg : Config) (dc : Datacenter) : Except String Datastore :=
  match cfg.datastore with
  | some nm =>
    if nm = "" then defaultDatastore dc
    else
      match (dc.datastoreFolderChildren.filterMap asDatastore).find?
          (fun d => d.name == nm) with
      | some d => Except.ok d
      | none => Except.error ("Datastore " ++ nm ++ " not found")
  | none => defaultDatastore dc

/-- The network block of `_connect_vcenter` (vmware_manager.py
lines 105-115): with a configured name, take the first network with an
exactly equal name or fail; otherwise no network object at all. -/
def resolveNetwork (cfg : Config) (dc : Datacenter) :
    Except String (Option NetworkObj) :=
  match cfg.network with
  | some nm =>
    if nm = "" then Except.ok none
    else
      match dc.networkFolderChildren.find? (fun net => net.name == nm) with
      | some net => Except.ok (some net)
      | none => Except.error ("Network " ++ nm ++ " not found")
  | none => Except.ok none

/-- The resolution part of `VMwareManager._connect_vcenter`: the four
blocks in source order, producing the resolved scope (the connection
itself is an external effect and is not modelled). -/
def connectVcenter (cfg : Config) (content : InventoryContent) :
    Except String ResourceScope :=
  match resolveDatacenter cfg content with
  | Except.error e => Except.error e
  | Except.ok dc =>
    match resolveComputeResource cfg dc with
    | Except.error e => Except.error e
    | Except.ok cr =>
      match resolveDatastore cfg dc with
      | Except.error e => Except.error e
      | Except.ok ds =>
        match resolveNetwork cfg dc with
        | Except.error e => Except.error e
        | Except.ok net =>
          Except.ok { datacenter := dc, resourcePool := cr.resourcePool,
                      datastore := ds, network := net }

/-! ## Virtual machines and the mutating handlers

A mutating handler is embedded as a function of the VM inventory, the
observed trace of the task it may submit, and a fuel bound for its inline
busy-wait loop.  It returns `none` while the busy-wait is still spinning,
and otherwise `some` of the raised error or of the returned message
paired with the list of tasks actually submitted to the platform (`[]`
means the platform was never asked to do anything, so its state is
unchanged by the call). -/

/-- The `vm.runtime.powerState` values. -/
inductive PowerState where
  | poweredOn
  | poweredOff
  | suspended
deriving DecidableEq

/-- A virtual machine, restricted to the fields the embedded handlers
read.  `snapshot` models `vm.snapshot`: `none` when the VM has no
snapshots, otherwise the `rootSnapshotList` forest. -/
structure VirtualMachine where
  name : String
  powerState : PowerState
  snapshot : Option (List SnapshotNode)

/-- The task-submitting platform calls the embedded handlers can make. -/
inductive VMAction where
  | powerOnTask
  | powerOffTask
  | removeAllSnapshotsTask
deriving DecidableEq

/-- Embedding of `VMwareManager.find_vm` (vmware_manager.py
lines 127-136): the first virtual machine of the container view whose
name equals `name`. -/
def find_vm (vms : List VirtualMachine) (name : String) : Option VirtualMachine :=
  vms.find? (fun vm => vm.name == name)

/-- Result type of a mutating handler: `none` while the inline busy-wait
is still spinning after the given fuel, otherwise the raised error or the
returned message with the submitted tasks. -/
def HandlerResult : Type := Option (Except String (String × List VMAction))

/-- Embedding of `VMwareManager.power_on_vm` (vmware_manager.py
lines 641-654): missing VM raises; an already-powered-on VM returns the
informational message without touching the platform; otherwise a
power-on task is submitted and busy-waited inline, raising the task
error on failure. -/
def power_on_vm (vms : List VirtualMachine) (name : String)
    (trace : TaskTrace) (fuel : Nat) : HandlerResult :=
  match find_vm vms name with
  | none => some (Except.error ("Virtual machine " ++ name ++ " not found"))
  | some vm =>
    if vm.powerState = PowerState.poweredOn then
      some (Except.ok ("VM \x27" ++ name ++ "\x27 is already powered on.", []))
    else
      match inlineTaskWait trace fuel with
      | none => none
      | some info =>
        if info.state = TaskState.error then
          some (Except.error (info.errorMsg.getD "task error"))
        else
          some (Except.ok ("VM \x27" ++ name ++ "\x27 powered on.",
                           [VMAction.powerOnTask]))

/-- Embedding of `VMwareManager.power_off_vm` (vmware_manager.py
lines 656-669), symmetric to `power_on_vm` with the powered-off
short-circuit. -/
def power_off_vm (vms : List VirtualMachine) (name : String)
    (trace : TaskTrace) (fuel : Nat) : HandlerResult :=
  match find_vm vms name with
  | none => some (Except.error ("Virtual machine " ++ name ++ " not found"))
  | some vm =>
    if vm.powerState = PowerState.poweredOff then
      some (Except.ok ("VM \x27" ++ name ++ "\x27 is already powered off.", []))
    else
      match inlineTaskWait trace fuel with
      | none => none
      | some info =>
        if info.state = TaskState.error then
          some (Except.error (info.errorMsg.getD "task error"))
        else
          some (Except.ok ("VM \x27" ++ name ++ "\x27 powered off.",
                           [VMAction.powerOffTask]))

/-- Embedding of `VMwareManager.remove_all_snapshots` (vmware_manager.py
lines 786-802): missing VM raises; a VM without snapshots returns the
informational message without submitting a task; otherwise a
remove-all-snapshots task is submitted and busy-waited inline. -/
def remove_all_snapshots (vms : List VirtualMachine) (vm_name : String)
    (trace : TaskTrace) (fuel : Nat) : HandlerResult :=
  match find_vm vms vm_name with
  | none => some (Except.error ("VM " ++ vm_name ++ " not found"))
  | some vm =>
    match vm.snapshot with
    | none =>
      some (Except.ok ("VM \x27" ++ vm_name ++ "\x27 has no snapshots to remove", []))
    | some _ =>
      match inlineTaskWait trace fuel with
      | none => none
      | some info =>
        if info.state = TaskState.error then
          some (Except.error (info.errorMsg.getD "task error"))
        else
          some (Except.ok ("All snapshots removed successfully from VM \x27"
                            ++ vm_name ++ "\x27",
                           [VMAction.removeAllSnapshotsTask]))

/-- Embedding of `VMwareManager.list_snapshots` (vmware_manager.py
lines 773-784): missing VM raises; a VM without snapshots yields the
empty list; otherwise the collected snapshot records starting at
level 0. -/
def list_snapshots (vms : List VirtualMachine) (vm_name : String) :
    Except String (List SnapInfo) :=
  match find_vm vms vm_name with
  | none => Except.error ("VM " ++ vm_name ++ " not found")
  | some vm =>
    match vm.snapshot with
    | none => Except.ok []
    | some roots => Except.ok (collectSnapshots roots 0)

/-! ## Host performance

`get_host_performance` computes utilization percentages over the
rationals; Python computes them with float division and
`round(x, 2)`, embedded here as exact rational arithmetic with rounding
to two decimal places. -/

/-- The quick stats of a host summary the source reads. -/
structure HostQuickStats where
  overallCpuUsage : Nat
  overallMemoryUsage : Nat
  uptime : Nat
deriving DecidableEq

/-- The cpu info of the host hardware the source reads. -/
structure HostCpuInfo where
  numCpuCores : Nat
  hz : Nat
deriving DecidableEq

/-- The host hardware fields the source reads. -/
structure HostHardware where
  cpuInfo : Option HostCpuInfo
  memorySize : Nat
deriving DecidableEq

/-- A host system, restricted to the fields `get_host_performance`
reads. -/
structure HostSystem where
  name : String
  quickStats : Option HostQuickStats
  hardware : Option HostHardware
deriving DecidableEq

/-- Embedding of `VMwareManager.find_host` (vmware_manager.py
lines 288-297): the first host of the container view whose name equals
`name`. -/
def find_host (hosts : List HostSystem) (name : String) : Option HostSystem :=
  hosts.find? (fun h => h.name == name)

/-- Rounding to two decimal places, the embedding of Python
`round(x, 2)` on the exact rational value. -/
def round2 (x : ℚ) : ℚ := (round (x * 100) : ℤ) / 100

/-- The stats dictionary built by `get_host_performance`; the four
utilization keys are only present when `host.hardware` is set, hence the
`Option` fields. -/
structure HostPerfStats where
  cpu_usage_mhz : Nat
  memory_usage_mb : Nat
  uptime_seconds : Nat
  cpu_total_mhz : Option Nat
  cpu_usage_percent : Option ℚ
  memory_total_mb : Option Nat
  memory_usage_percent : Option ℚ
deriving DecidableEq

/-- Embedding of `VMwareManager.get_host_performance` (vmware_manager.py
lines 368-392): quick stats default to 0 when absent; with hardware
present, `cpu_total_mhz = numCpuCores * (hz // 10^6)` (0 without cpu
info), `memory_total_mb = memorySize // 1024^2` (0 when `memorySize` is
falsy), and each percentage is `round(usage / total * 100, 2)` guarded by
`if total > 0 else 0`. -/
def get_host_performance (hosts : List HostSystem) (host_name : String) :
    Except String HostPerfStats :=
  match find_host hosts host_name with
  | none => Except.error ("Host " ++ host_name ++ " not found")
  | some host =>
    let cpuUsage : Nat :=
      match host.quickStats with
      | some qs => qs.overallCpuUsage
      | none => 0
    let memUsage : Nat :=
      match host.quickStats with
      | some qs => qs.overallMemoryUsage
      | none => 0
    let up : Nat :=
      match host.quickStats with
      | some qs => qs.uptime
      | none => 0
    match host.hardware with
    | none =>
      Except.ok { cpu_usage_mhz := cpuUsage, memory_usage_mb := memUsage,
                  uptime_seconds := up,
                  cpu_total_mhz := none, cpu_usage_percent := none,
                  memory_total_mb := none, memory_usage_percent := none }
    | some hw =>
      let totalCpu : Nat :=
        match hw.cpuInfo with
        | some ci => ci.numCpuCores * (ci.hz / 1000000)
        | none => 0
      let totalMem : Nat := if hw.memorySize ≠ 0 then hw.memorySize / (1024 ^ 2) else 0
      Except.ok { cpu_usage_mhz := cpuUsage, memory_usage_mb := memUsage,
                  uptime_seconds := up,
                  cpu_total_mhz := some totalCpu,
                  cpu_usage_percent :=
                    some (if 0 < totalCpu
                          then round2 ((cpuUsage : ℚ) / (totalCpu : ℚ) * 100)
                          else 0),
                  memory_total_mb := some totalMem,
                  memory_usage_percent :=
                    some (if 0 < totalMem
                          then round2 ((memUsage : ℚ) / (totalMem : ℚ) * 100)
                          else 0) }

/-! ## Tool dispatch gateway

`call_tool_handler` in mcp_server.py checks the requested name against
the keys of `tool_handler_map` before any lookup, and raises a dedicated
`ValueError` carrying only the requested name when it is absent.  The
handlers themselves are abstracted as a function from name and arguments
to an `Except` outcome. -/

/-- The keys of `tool_handler_map` (mcp_server.py lines 361-393), in
source order. -/
def toolHandlerMapNames : List String :=
  ["create_vm", "clone_vm", "delete_vm", "power_on_vm", "power_off_vm",
   "list_vms", "get_vm_details", "get_vm_performance", "get_vm_summary_stats",
   "create_vm_custom", "list_templates", "list_datastores",
   "list_datastore_clusters", "list_networks", "list_hosts",
   "get_host_details", "get_host_performance_metrics",
   "get_host_hardware_health", "get_host_performance",
   "list_performance_counters", "create_snapshot", "remove_snapshot",
   "revert_snapshot", "list_snapshots", "remove_all_snapshots",
   "execute_program_in_vm", "upload_file_to_vm", "upload_file_to_datastore",
   "deploy_ovf", "deploy_ova", "wait_for_updates"]

/-- Errors the dispatch gateway can produce: the dedicated
unknown-operation error (`ValueError(f"Unknown tool: {name}")`, carrying
only the requested name), or a failure propagated from the invoked
handler. -/
inductive ToolCallError where
  | unknownTool (requested : String)
  | handlerFailure (msg : String)
deriving DecidableEq

/-- The message string of a gateway error, as the source renders it. -/
def ToolCallError.message : ToolCallError → String
  | ToolCallError.unknownTool n => "Unknown tool: " ++ n
  | ToolCallError.handlerFailure m => m

/-- Embedding of `call_tool_handler` (mcp_server.py lines 410-426):
`if name not in tool_handler_map: raise ValueError(...)` before any
handler lookup, then the handler runs and its serialized text result is
returned.  `handlerRun` abstracts the registered handler bodies (with
serialization already applied), given the name and arguments of the
call. -/
def call_tool_handler
    (handlerRun : String → List (String × String) → Except String String)
    (name : String) (arguments : List (String × String)) :
    Except ToolCallError String :=
  if toolHandlerMapNames.contains name then
    match handlerRun name arguments with
    | Except.ok text => Except.ok text
    | Except.error m => Except.error (ToolCallError.handlerFailure m)
  else
    Except.error (ToolCallError.unknownTool name)

/-! ## Authentication gate

`ToolHandlers._check_auth` (tools.py lines 17-22) raises
`Exception("Unauthorized: API key required.")` whenever an API key is
configured and `manager.authenticated` is still false; every one of the
32 methods of `ToolHandlers` calls `self._check_auth()` first and only
then delegates to the manager, so a tool call is the gate followed by the
delegate body. -/

/-- The one field of `VMwareManager` the auth gate reads: the flag
initialized to `False` in `VMwareManager.__init__`
(vmware_manager.py line 24). -/
structure ManagerAuth where
  authenticated : Bool
deriving DecidableEq

/-- Embedding of `ToolHandlers._check_auth`: with a configured (truthy)
API key, an unauthenticated manager raises the Unauthorized error;
otherwise the check passes. -/
def check_auth (cfg : Config) (m : ManagerAuth) : Except String Unit :=
  if optStrTruthy cfg.api_key then
    if !m.authenticated then Except.error "Unauthorized: API key required."
    else Except.ok ()
  else Except.ok ()

/-- The shape shared by every method of `ToolHandlers` (tools.py): run
`_check_auth`, and only if it passes evaluate the delegated manager call
(`delegate`).  When the gate raises, `delegate` is never evaluated, i.e.
the platform is never reached. -/
def toolHandlerCall {α : Type} (cfg : Config) (m : ManagerAuth)
    (delegate : Except String α) : Except String α :=
  match check_auth cfg m with
  | Except.error e => Except.error e
  | Except.ok _ => delegate

/-- Modelled from the spec: the dedicated authenticate operation is
implemented in the transport module, which is not under src/.  Section
4.5 of the spec: the only way to set `AuthState` true is a dedicated
authenticate operation validating the caller-supplied key against the
configured key.  On success it sets the manager flag and reports true;
otherwise it leaves the state unchanged and reports false. -/
def authenticate (cfg : Config) (m : ManagerAuth) (key : String) :
    ManagerAuth × Bool :=
  match cfg.api_key with
  | some k => if key = k then ({ authenticated := true }, true) else (m, false)
  | none => (m, false)

/-! ## Concrete inputs

Concrete data used by the example parts of the theorems and by the
witnesses. -/

/-- Leaf snapshot D of the example tree of the spec. -/
def snapD : SnapshotNode := SnapshotNode.mk "D" "" "t4" "poweredOff" []

/-- Leaf snapshot B of the example tree of the spec. -/
def snapB : SnapshotNode := SnapshotNode.mk "B" "" "t2" "poweredOff" []

/-- Snapshot C, parent of D, of the example tree of the spec. -/
def snapC : SnapshotNode := SnapshotNode.mk "C" "" "t3" "poweredOff" [snapD]

/-- Root snapshot A of the example tree `A -> [B, C -> [D]]`. -/
def snapA : SnapshotNode := SnapshotNode.mk "A" "" "t1" "poweredOff" [snapB, snapC]

/-- The example snapshot forest `A -> [B, C -> [D]]` of the spec. -/
def exampleForest : List SnapshotNode := [snapA]

/-- A powered-on VM without snapshots. -/
def demoVmOn : VirtualMachine :=
  { name := "vm-on", powerState := PowerState.poweredOn, snapshot := none }

/-- A powered-off VM without snapshots. -/
def demoVmOff : VirtualMachine :=
  { name := "vm-off", powerState := PowerState.poweredOff, snapshot := none }

/-- A two-VM inventory. -/
def demoVms : List VirtualMachine := [demoVmOn, demoVmOff]

/-- A datacenter whose datastores have free space 10, 50 and 30 GB. -/
def c7dc : Datacenter :=
  { name := "dc1", hostFolderChildren := [],
    datastoreFolderChildren :=
      [DatastoreFolderEntity.ds { name := "dsA", freeSpace := 10 * 1024 ^ 3 },
       DatastoreFolderEntity.ds { name := "dsB", freeSpace := 50 * 1024 ^ 3 },
       DatastoreFolderEntity.ds { name := "dsC", freeSpace := 30 * 1024 ^ 3 }],
    networkFolderChildren := [] }

/-- A configuration with no explicit names and no API key. -/
def emptyCfg : Config :=
  { datacenter := none, cluster := none, datastore := none, network := none,
    api_key := none }

/-- The 50-GB datastore of `c7dc`. -/
def c7ds50 : Datastore := { name := "dsB", freeSpace := 50 * 1024 ^ 3 }

/-- A configuration naming every resolvable component. -/
def witCfgAll : Config :=
  { datacenter := some "dc1", cluster := some "cl1", datastore := some "dsB",
    network := some "net1", api_key := none }

/-- A datacenter containing the objects `witCfgAll` names. -/
def witDC : Datacenter :=
  { name := "dc1",
    hostFolderChildren :=
      [HostFolderEntity.compute
        { name := "cl1", resourcePool := "pool1", isCluster := true }],
    datastoreFolderChildren :=
      [DatastoreFolderEntity.ds { name := "dsB", freeSpace := 7 }],
    networkFolderChildren := [{ name := "net1", isDistributedPortgroup := false }] }

/-- An inventory whose root folder holds `witDC`. -/
def witContent : InventoryContent :=
  { rootFolderChildren := [RootFolderEntity.dc witDC] }

/-- Host hardware with zero total capacity: a cpu info of zero cores and
a memory size of zero bytes. -/
def zeroHw : HostHardware :=
  { cpuInfo := some { numCpuCores := 0, hz := 2400000000 }, memorySize := 0 }

/-- A host whose total CPU MHz and total memory MB are both zero. -/
def zeroHost : HostSystem :=
  { name := "h0",
    quickStats := some { overallCpuUsage := 0, overallMemoryUsage := 0, uptime := 0 },
    hardware := some zeroHw }

/-- A one-host inventory. -/
def demoHosts : List HostSystem := [zeroHost]

/-- The stats dictionary `get_host_performance` builds for `zeroHost`. -/
def zeroHostStats : HostPerfStats :=
  { cpu_usage_mhz := 0, memory_usage_mb := 0, uptime_seconds := 0,
    cpu_total_mhz := some 0, cpu_usage_percent := some 0,
    memory_total_mb := some 0, memory_usage_percent := some 0 }

/-- A configuration with an API key and nothing else. -/
def c1cfg : Config :=
  { datacenter := none, cluster := none, datastore := none, network := none,
    api_key := some "secret" }

/-- The manager auth state right after `VMwareManager.__init__`. -/
def c1m0 : ManagerAuth := { authenticated := false }

/-! ## Theorems -/

/-- Helper: on a task that stays non-terminal through the whole polling
window, the `wait_for_task` loop returns the timeout dictionary, with the
state last observed at second `timeout + 1`. -/
theorem waitForTaskAux_timeout (trace : TaskTrace) (timeout : Nat) :
    ∀ remaining t, timeout + 2 = t + remaining → t ≤ timeout + 1 →
      (∀ u, u ≤ timeout + 1 → isTerminal (trace u).state = false) →
      waitForTaskAux trace timeout remaining t
        = WaitOutcome.timedOut (trace (timeout + 1)).state := by
  intro remaining
  induction remaining with
  | zero => intro t h1 h2 _; omega
  | succ r ih =>
    intro t h1 h2 h3
    have hterm := h3 t h2
    by_cases hlt : timeout < t
    · have ht : t = timeout + 1 := by omega
      subst ht
      have hstep : waitForTaskAux trace timeout (r + 1) (timeout + 1)
          = if timeout < timeout + 1
            then WaitOutcome.timedOut (trace (timeout + 1)).state
            else waitForTaskAux trace timeout r (timeout + 2) := by
        simp only [waitForTaskAux, hterm, Bool.false_eq_true, if_false]
      rw [hstep, if_pos (Nat.lt_succ_self timeout)]
    · simp only [waitForTaskAux, hterm, Bool.false_eq_true, if_false, hlt]
      exact ih (t + 1) (by omega) (by omega) h3

/-- Helper: `wait_for_task` on a never-terminal task yields the timeout
outcome. -/
theorem wait_for_task_timeout_of (trace : TaskTrace) (timeout : Nat)
    (h : ∀ u, u ≤ timeout + 1 → isTerminal (trace u).state = false) :
    wait_for_task trace timeout = WaitOutcome.timedOut (trace (timeout + 1)).state :=
  waitForTaskAux_timeout trace timeout (timeout + 2) 0 (by omega) (by omega) h

/-- C4: a task that never reaches a terminal state within the polling
window of the configured timeout makes `wait_for_task` return the
dictionary with status "timeout" — a distinguishable timed-out outcome,
not the failed (status "error") outcome; the function returns a value on
every path (it has no raise statement). -/
theorem wait_for_task_times_out_not_fails (trace : TaskTrace) (timeout : Nat)
    (h : ∀ u, u ≤ timeout + 1 → isTerminal (trace u).state = false) :
    wait_for_task trace timeout = WaitOutcome.timedOut (trace (timeout + 1)).state
    ∧ (wait_for_task trace timeout).status = "timeout"
    ∧ ∀ msg, wait_for_task trace timeout ≠ WaitOutcome.failed msg := by
  have hmain := wait_for_task_timeout_of trace timeout h
  refine ⟨hmain, by rw [hmain]; rfl, ?_⟩
  intro msg hcontra
  rw [hmain] at hcontra
  exact WaitOutcome.noConfusion hcontra

/-- Witness for C4 at the constantly-running task and timeout 3. -/
theorem wait_for_task_times_out_not_fails_witness :
    wait_for_task constRunningTrace 3 = WaitOutcome.timedOut TaskState.running
    ∧ (wait_for_task constRunningTrace 3).status = "timeout"
    ∧ ∀ msg, wait_for_task constRunningTrace 3 ≠ WaitOutcome.failed msg :=
  wait_for_task_times_out_not_fails constRunningTrace 3 (fun _ _ => rfl)

/-- Helper: the inline busy-wait loop of the mutating handlers never
returns on a never-terminal task, whatever the fuel. -/
theorem inlineTaskWaitAux_none (trace : TaskTrace)
    (h : ∀ u, isTerminal (trace u).state = false) :
    ∀ fuel t, inlineTaskWaitAux trace fuel t = none := by
  intro fuel
  induction fuel with
  | zero => intro t; rfl
  | succ f ih =>
    intro t
    simp only [inlineTaskWaitAux, h t, Bool.false_eq_true, if_false]
    exact ih (t + 1)

/-- C3 (divergence theorem): evaluated at the failing input — a task that
never leaves the running state — the inline busy-wait loop that every
mutating handler uses (`while task.info.state not in [success, error]:
continue`) never finishes, for any fuel bound; concretely, `power_on_vm`
of a powered-off VM never returns.  The bounded Task Executor
`wait_for_task`, which the source defines with a timeout but which no
mutating handler calls, returns the status-"timeout" dictionary on the
same task. -/
theorem mutating_handler_busy_wait_unbounded :
    (∀ fuel, inlineTaskWait constRunningTrace fuel = none)
    ∧ (∀ fuel, power_on_vm demoVms "vm-off" constRunningTrace fuel = none)
    ∧ wait_for_task constRunningTrace 300 = WaitOutcome.timedOut TaskState.running
    ∧ (wait_for_task constRunningTrace 300).status = "timeout" := by
  have hnone : ∀ fuel, inlineTaskWait constRunningTrace fuel = none :=
    fun fuel => inlineTaskWaitAux_none constRunningTrace (fun _ => rfl) fuel 0
  have hwait := wait_for_task_timeout_of constRunningTrace 300 (fun _ _ => rfl)
  refine ⟨hnone, ?_, hwait, by rw [hwait]; rfl⟩
  intro fuel
  simp [power_on_vm, find_vm, demoVms, demoVmOn, demoVmOff, hnone fuel]

/-- C8: on an already-powered-on VM, `power_on_vm` returns its
informational success message with an empty list of submitted platform
tasks — whatever the task trace and fuel, i.e. the platform is never
called and its state is unchanged — and symmetrically for `power_off_vm`
on an already-powered-off VM. -/
theorem power_ops_idempotent (vms : List VirtualMachine) (name : String)
    (vm : VirtualMachine) (hfind : find_vm vms name = some vm) :
    (vm.powerState = PowerState.poweredOn →
      ∀ trace fuel, power_on_vm vms name trace fuel
        = some (Except.ok ("VM \x27" ++ name ++ "\x27 is already powered on.", [])))
    ∧ (vm.powerState = PowerState.poweredOff →
      ∀ trace fuel, power_off_vm vms name trace fuel
        = some (Except.ok ("VM \x27" ++ name ++ "\x27 is already powered off.", []))) := by
  constructor
  · intro hps trace fuel
    simp [power_on_vm, hfind, hps]
  · intro hps trace fuel
    simp [power_off_vm, hfind, hps]

/-- Witness for C8 on the two-VM demo inventory. -/
theorem power_ops_idempotent_witness :
    power_on_vm demoVms "vm-on" constRunningTrace 0
      = some (Except.ok ("VM \x27" ++ "vm-on" ++ "\x27 is already powered on.", []))
    ∧ power_off_vm demoVms "vm-off" constRunningTrace 0
      = some (Except.ok ("VM \x27" ++ "vm-off" ++ "\x27 is already powered off.", [])) :=
  ⟨(power_ops_idempotent demoVms "vm-on" demoVmOn rfl).1 rfl constRunningTrace 0,
   (power_ops_idempotent demoVms "vm-off" demoVmOff rfl).2 rfl constRunningTrace 0⟩

/-- C10: on an existing VM without snapshots, `remove_all_snapshots`
returns the informational message with an empty list of submitted
platform tasks (no remote task, whatever the trace and fuel), and
`list_snapshots` returns the empty list instead of an error. -/
theorem no_snapshot_vm_noop (vms : List VirtualMachine) (vm_name : String)
    (vm : VirtualMachine) (hfind : find_vm vms vm_name = some vm)
    (hsnap : vm.snapshot = none) :
    (∀ trace fuel, remove_all_snapshots vms vm_name trace fuel
        = some (Except.ok ("VM \x27" ++ vm_name ++ "\x27 has no snapshots to remove", [])))
    ∧ list_snapshots vms vm_name = Except.ok [] := by
  constructor
  · intro trace fuel
    simp [remove_all_snapshots, hfind, hsnap]
  · simp [list_snapshots, hfind, hsnap]

/-- Witness for C10 on the snapshot-free demo VM. -/
theorem no_snapshot_vm_noop_witness :
    remove_all_snapshots demoVms "vm-off" constRunningTrace 0
      = some (Except.ok ("VM \x27" ++ "vm-off" ++ "\x27 has no snapshots to remove", []))
    ∧ list_snapshots demoVms "vm-off" = Except.ok [] :=
  ⟨(no_snapshot_vm_noop demoVms "vm-off" demoVmOff rfl rfl).1 constRunningTrace 0,
   (no_snapshot_vm_noop demoVms "vm-off" demoVmOff rfl rfl).2⟩

/-- C6: a requested operation name that matches no key of the handler map
makes the dispatch gateway fail with the dedicated unknown-operation
error — a distinct error constructor produced before any handler lookup
(so no crash, whatever the handlers do), whose message renders only the
requested name and no internal handler detail. -/
theorem unknown_tool_dedicated_error
    (handlerRun : String → List (String × String) → Except String String)
    (name : String) (arguments : List (String × String))
    (h : toolHandlerMapNames.contains name = false) :
    call_tool_handler handlerRun name arguments
      = Except.error (ToolCallError.unknownTool name)
    ∧ (ToolCallError.unknownTool name).message = "Unknown tool: " ++ name := by
  refine ⟨?_, rfl⟩
  simp only [call_tool_handler, h, Bool.false_eq_true, if_false]

/-- Witness for C6 at the unregistered name "frobnicate". -/
theorem unknown_tool_dedicated_error_witness :
    call_tool_handler (fun _ _ => Except.ok "ok") "frobnicate" []
      = Except.error (ToolCallError.unknownTool "frobnicate")
    ∧ (ToolCallError.unknownTool "frobnicate").message = "Unknown tool: " ++ "frobnicate" :=
  unknown_tool_dedicated_error (fun _ _ => Except.ok "ok") "frobnicate" [] rfl

/-- C1: with a configured (truthy) API key and the authenticated flag
still false, every tool handler — each of the 32 `ToolHandlers` methods
runs `_check_auth` first and only then delegates to the manager, the
shape captured by `toolHandlerCall` — fails with the Unauthorized error
for every possible delegate body, so the platform is never reached; and
after any successful authenticate call, the same handler call returns
exactly its delegate body result. -/
theorem auth_gate_blocks_until_authenticated (cfg : Config) (m : ManagerAuth)
    (hkey : optStrTruthy cfg.api_key = true) (hauth : m.authenticated = false) :
    (∀ (α : Type) (delegate : Except String α),
        toolHandlerCall cfg m delegate = Except.error "Unauthorized: API key required.")
    ∧ (∀ (key : String) (m2 : ManagerAuth),
        authenticate cfg m key = (m2, true) →
        ∀ (α : Type) (delegate : Except String α),
          toolHandlerCall cfg m2 delegate = delegate) := by
  constructor
  · intro α delegate
    simp [toolHandlerCall, check_auth, hkey, hauth]
  · intro key m2 hok α delegate
    have hm2 : m2.authenticated = true := by
      cases hk : cfg.api_key with
      | none =>
        simp [authenticate, hk] at hok
      | some k =>
        simp only [authenticate, hk] at hok
        split at hok
        · injection hok with h1 h2
          subst h1
          rfl
        · injection hok with h1 h2
          exact Bool.noConfusion h2
    simp [toolHandlerCall, check_auth, hm2]

/-- Witness for C1: with key "secret" configured, a fresh manager is
rejected, and after authenticating with "secret" the same call passes
through to its delegate. -/
theorem auth_gate_blocks_until_authenticated_witness :
    toolHandlerCall c1cfg c1m0 (Except.ok "vm-list")
      = Except.error "Unauthorized: API key required."
    ∧ toolHandlerCall c1cfg (authenticate c1cfg c1m0 "secret").1 (Except.ok "vm-list")
      = Except.ok "vm-list" := by
  have h := auth_gate_blocks_until_authenticated c1cfg c1m0 rfl rfl
  exact ⟨h.1 String (Except.ok "vm-list"),
         h.2 "secret" (authenticate c1cfg c1m0 "secret").1 rfl String (Except.ok "vm-list")⟩

/-- Helper: reading the `name` field of a constructed snapshot node. -/
theorem SnapshotNode.name_mk (n d ct st : String) (ch : List SnapshotNode) :
    (SnapshotNode.mk n d ct st ch).name = n := rfl

/-- Helper: the source snapshot search returns exactly the first node of
the depth-first pre-order traversal whose name matches; in particular
duplicate names resolve to the earliest-visited node. -/
theorem findSnapshotByName_eq_preorder_find (nm : String) (l : List SnapshotNode) :
    findSnapshotByName nm l = (preorderList l).find? (fun s => s.name == nm) := by
  induction l using findSnapshotByName.induct nm with
  | case1 => simp [findSnapshotByName, preorderList]
  | case2 n d ct st ch rest hname =>
    simp [findSnapshotByName, preorderList, List.find?_cons, SnapshotNode.name_mk, hname]
  | case3 n d ct st ch rest hname r hch ihch =>
    simp [findSnapshotByName, preorderList, List.find?_cons, SnapshotNode.name_mk, hname,
          List.find?_append, ← ihch, hch]
  | case4 n d ct st ch rest hname hch ihch ihrest =>
    simp [findSnapshotByName, preorderList, List.find?_cons, SnapshotNode.name_mk, hname,
          List.find?_append, ← ihch, hch, ← ihrest]

/-- Helper: the source snapshot flattening is the depth-annotated
depth-first pre-order traversal, one info record per traversed node. -/
theorem collectSnapshots_eq_preorderDepth (l : List SnapshotNode) (level : Nat) :
    collectSnapshots l level
      = (preorderDepth l level).map (fun p => snapInfoOf p.1 p.2) := by
  induction l, level using collectSnapshots.induct with
  | case1 level => simp [collectSnapshots, preorderDepth]
  | case2 n d ct st ch rest level ihch ihrest =>
    simp [collectSnapshots, preorderDepth, snapInfoOf, List.map_append, ihch, ihrest]

/-- Helper: the node sequence underlying the depth-annotated traversal is
the depth-first pre-order node sequence. -/
theorem preorderDepth_map_fst (l : List SnapshotNode) (level : Nat) :
    (preorderDepth l level).map Prod.fst = preorderList l := by
  induction l, level using preorderDepth.induct with
  | case1 _ => simp [preorderDepth, preorderList]
  | case2 n d ct st ch rest level ihch ihrest =>
    simp [preorderDepth, preorderList, List.map_append, ihch, ihrest]

/-- C5: snapshot search is depth-first pre-order returning the first
matching node (duplicate names resolve to the earliest-visited node,
since it equals `find?` over the pre-order sequence), and snapshot
flattening is the depth-first pre-order sequence annotated with depth;
on the example tree `A -> [B, C -> [D]]`, searching "D" returns the node
D and flattening yields `[(A,0), (B,1), (C,1), (D,2)]`. -/
theorem snapshot_navigator_preorder :
    (∀ (nm : String) (l : List SnapshotNode),
        findSnapshotByName nm l = (preorderList l).find? (fun s => s.name == nm))
    ∧ (∀ (l : List SnapshotNode) (level : Nat),
        collectSnapshots l level
          = (preorderDepth l level).map (fun p => snapInfoOf p.1 p.2))
    ∧ (∀ (l : List SnapshotNode) (level : Nat),
        (preorderDepth l level).map Prod.fst = preorderList l)
    ∧ findSnapshotByName "D" exampleForest = some snapD
    ∧ (collectSnapshots exampleForest 0).map (fun i => (i.name, i.level))
        = [("A", 0), ("B", 1), ("C", 1), ("D", 2)] := by
  refine ⟨findSnapshotByName_eq_preorder_find, collectSnapshots_eq_preorderDepth,
          preorderDepth_map_fst, ?_, ?_⟩
  · simp [findSnapshotByName, exampleForest, snapA, snapB, snapC, snapD]
  · simp [collectSnapshots, exampleForest, snapA, snapB, snapC, snapD]

/-- Helper: with an explicit non-empty datacenter name, a successful
resolution binds a datacenter of exactly that name. -/
theorem resolveDatacenter_named (cfg : Config) (content : InventoryContent)
    (nm : String) (d : Datacenter) (h1 : cfg.datacenter = some nm) (h2 : nm ≠ "")
    (h : resolveDatacenter cfg content = Except.ok d) : d.name = nm := by
  simp only [resolveDatacenter, h1] at h
  rw [if_neg h2] at h
  cases hf : (content.rootFolderChildren.filterMap asDatacenter).find?
      (fun d => d.name == nm) with
  | none => rw [hf] at h; cases h
  | some d2 =>
    rw [hf] at h
    injection h with hd
    subst hd
    have := List.find?_some hf
    exact eq_of_beq this

/-- Helper: with an explicit non-empty cluster name, a successful
resolution binds a cluster compute resource of exactly that name. -/
theorem resolveComputeResource_named (cfg : Config) (dc : Datacenter)
    (nm : String) (c : ComputeRes) (h1 : cfg.cluster = some nm) (h2 : nm ≠ "")
    (h : resolveComputeResource cfg dc = Except.ok c) :
    c.isCluster = true ∧ c.name = nm := by
  simp only [resolveComputeResource, h1] at h
  rw [if_neg h2] at h
  cases hf : (dc.hostFolderChildren.filterMap asCompute).find?
      (fun c => c.isCluster && c.name == nm) with
  | none => rw [hf] at h; cases h
  | some c2 =>
    rw [hf] at h
    injection h with hc
    subst hc
    have hp := List.find?_some hf
    rw [Bool.and_eq_true] at hp
    exact ⟨hp.1, eq_of_beq hp.2⟩

/-- Helper: with an explicit non-empty datastore name, a successful
resolution binds a datastore of exactly that name. -/
theorem resolveDatastore_named (cfg : Config) (dc : Datacenter)
    (nm : String) (d : Datastore) (h1 : cfg.datastore = some nm) (h2 : nm ≠ "")
    (h : resolveDatastore cfg dc = Except.ok d) : d.name = nm := by
  simp only [resolveDatastore, h1] at h
  rw [if_neg h2] at h
  cases hf : (dc.datastoreFolderChildren.filterMap asDatastore).find?
      (fun d => d.name == nm) with
  | none => rw [hf] at h; cases h
  | some d2 =>
    rw [hf] at h
    injection h with hd
    subst hd
    have hp := List.find?_some hf
    exact eq_of_beq hp

/-- Helper: with an explicit non-empty network name, a successful
resolution binds a network of exactly that name (never the
omit-adapter default). -/
theorem resolveNetwork_named (cfg : Config) (dc : Datacenter)
    (nm : String) (net : Option NetworkObj) (h1 : cfg.network = some nm) (h2 : nm ≠ "")
    (h : resolveNetwork cfg dc = Except.ok net) :
    ∃ n, net = some n ∧ n.name = nm := by
  simp only [resolveNetwork, h1] at h
  rw [if_neg h2] at h
  cases hf : dc.networkFolderChildren.find? (fun n => n.name == nm) with
  | none => rw [hf] at h; cases h
  | some n2 =>
    rw [hf] at h
    injection h with hn
    subst hn
    have hp := List.find?_some hf
    exact ⟨n2, rfl, eq_of_beq hp⟩

/-- Helper: a successful `connectVcenter` decomposes into the four
successful resolution blocks, in source order. -/
theorem connectVcenter_ok (cfg : Config) (content : InventoryContent)
    (scope : ResourceScope) (h : connectVcenter cfg content = Except.ok scope) :
    ∃ dc cr ds net,
      resolveDatacenter cfg content = Except.ok dc
      ∧ resolveComputeResource cfg dc = Except.ok cr
      ∧ resolveDatastore cfg dc = Except.ok ds
      ∧ resolveNetwork cfg dc = Except.ok net
      ∧ scope = { datacenter := dc, resourcePool := cr.resourcePool,
                  datastore := ds, network := net } := by
  unfold connectVcenter at h
  split at h
  · cases h
  · rename_i dc hdc
    split at h
    · cases h
    · rename_i cr hcr
      split at h
      · cases h
      · rename_i ds hds
        split at h
        · cases h
        · rename_i net hnet
          injection h with hs
          exact ⟨dc, cr, ds, net, hdc, hcr, hds, hnet, hs.symm⟩

/-- C2: for every explicitly configured non-empty name of a datacenter,
compute resource (cluster), datastore or network, a successful startup
resolution binds an object whose name equals the configured name exactly
(name mismatches fail with a raised configuration error, which is the
only other outcome of the `Except`) — a default object is never
substituted for a given name. -/
theorem resolution_exact_name_or_error (cfg : Config) (content : InventoryContent) :
    (∀ nm scope, cfg.datacenter = some nm → nm ≠ "" →
        connectVcenter cfg content = Except.ok scope → scope.datacenter.name = nm)
    ∧ (∀ nm dc c, cfg.cluster = some nm → nm ≠ "" →
        resolveComputeResource cfg dc = Except.ok c →
          c.isCluster = true ∧ c.name = nm)
    ∧ (∀ nm scope, cfg.datastore = some nm → nm ≠ "" →
        connectVcenter cfg content = Except.ok scope → scope.datastore.name = nm)
    ∧ (∀ nm scope, cfg.network = some nm → nm ≠ "" →
        connectVcenter cfg content = Except.ok scope →
          ∃ net, scope.network = some net ∧ net.name = nm) := by
  refine ⟨?_, ?_, ?_, ?_⟩
  · intro nm scope h1 h2 h
    obtain ⟨dc, cr, ds, net, hdc, _, _, _, hs⟩ := connectVcenter_ok cfg content scope h
    subst hs
    exact resolveDatacenter_named cfg content nm dc h1 h2 hdc
  · intro nm dc c h1 h2 h
    exact resolveComputeResource_named cfg dc nm c h1 h2 h
  · intro nm scope h1 h2 h
    obtain ⟨dc, cr, ds, net, _, _, hds, _, hs⟩ := connectVcenter_ok cfg content scope h
    subst hs
    exact resolveDatastore_named cfg dc nm ds h1 h2 hds
  · intro nm scope h1 h2 h
    obtain ⟨dc, cr, ds, net, _, _, _, hnet, hs⟩ := connectVcenter_ok cfg content scope h
    subst hs
    exact resolveNetwork_named cfg dc nm net h1 h2 hnet

/-- Witness for C2 on a fully named configuration against an inventory
that holds the named objects. -/
theorem resolution_exact_name_or_error_witness :
    connectVcenter witCfgAll witContent
      = Except.ok { datacenter := witDC, resourcePool := "pool1",
                    datastore := { name := "dsB", freeSpace := 7 },
                    network := some { name := "net1", isDistributedPortgroup := false } }
    ∧ witDC.name = "dc1"
    ∧ ({ name := "dsB", freeSpace := 7 } : Datastore).name = "dsB"
    ∧ ∃ net, (some { name := "net1", isDistributedPortgroup := false } : Option NetworkObj)
        = some net ∧ net.name = "net1" := by
  have hok : connectVcenter witCfgAll witContent
      = Except.ok { datacenter := witDC, resourcePool := "pool1",
                    datastore := { name := "dsB", freeSpace := 7 },
                    network := some { name := "net1", isDistributedPortgroup := false } } := by
    rfl
  obtain ⟨hdcn, _, hdsn, hnetn⟩ := resolution_exact_name_or_error witCfgAll witContent
  refine ⟨hok, ?_, ?_, ?_⟩
  · exact hdcn "dc1" _ rfl (by decide) hok
  · exact hdsn "dsB" _ rfl (by decide) hok
  · exact hnetn "net1" _ rfl (by decide) hok

/-- Helper: the running maximum of the `max` fold is the seed or one of
the folded elements. -/
theorem foldl_pickFreer_mem (d : Datastore) (l : List Datastore) :
    l.foldl pickFreer d = d ∨ l.foldl pickFreer d ∈ l := by
  induction l generalizing d with
  | nil => exact Or.inl rfl
  | cons y ys ih =>
    simp only [List.foldl_cons]
    rcases ih (pickFreer d y) with h | h
    · rw [h]
      unfold pickFreer
      split
      · exact Or.inr (List.mem_cons_self y ys)
      · exact Or.inl rfl
    · exact Or.inr (List.mem_cons_of_mem y h)

/-- Helper: the running maximum of the `max` fold has free space at
least that of the seed and of every folded element. -/
theorem foldl_pickFreer_ge (d : Datastore) (l : List Datastore) :
    d.freeSpace ≤ (l.foldl pickFreer d).freeSpace
    ∧ ∀ x ∈ l, x.freeSpace ≤ (l.foldl pickFreer d).freeSpace := by
  induction l generalizing d with
  | nil => exact ⟨le_refl _, fun x hx => absurd hx (List.not_mem_nil x)⟩
  | cons y ys ih =>
    simp only [List.foldl_cons]
    obtain ⟨ih1, ih2⟩ := ih (pickFreer d y)
    have hd : d.freeSpace ≤ (pickFreer d y).freeSpace := by
      unfold pickFreer
      split
      · rename_i hgt; omega
      · exact le_refl _
    have hy : y.freeSpace ≤ (pickFreer d y).freeSpace := by
      unfold pickFreer
      split
      · exact le_refl _
      · rename_i hgt; omega
    refine ⟨le_trans hd ih1, ?_⟩
    intro x hx
    rcases List.mem_cons.mp hx with rfl | hx2
    · exact le_trans hy ih1
    · exact ih2 x hx2

/-- Helper: a `some` result of the `max` step belongs to the list and
dominates every element in free space. -/
theorem maxByFreeSpace_spec (l : List Datastore) (d : Datastore)
    (h : maxByFreeSpace l = some d) :
    d ∈ l ∧ ∀ x ∈ l, x.freeSpace ≤ d.freeSpace := by
  cases l with
  | nil => cases h
  | cons y ys =>
    simp only [maxByFreeSpace] at h
    injection h with hd
    subst hd
    constructor
    · rcases foldl_pickFreer_mem y ys with h1 | h1
      · rw [h1]; exact List.mem_cons_self y ys
      · exact List.mem_cons_of_mem y h1
    · intro x hx
      obtain ⟨h1, h2⟩ := foldl_pickFreer_ge y ys
      rcases List.mem_cons.mp hx with rfl | hx2
      · exact h1
      · exact h2 x hx2

/-- C7: with no configured datastore name, a successful resolution picks
a datastore of the datacenter with maximal free space among all of the
datacenter datastores. -/
theorem default_datastore_max_free (cfg : Config) (dc : Datacenter) (d : Datastore)
    (hname : optStrTruthy cfg.datastore = false)
    (h : resolveDatastore cfg dc = Except.ok d) :
    d ∈ dc.datastoreFolderChildren.filterMap asDatastore
    ∧ ∀ x ∈ dc.datastoreFolderChildren.filterMap asDatastore,
        x.freeSpace ≤ d.freeSpace := by
  have hdef : defaultDatastore dc = Except.ok d := by
    cases hcfg : cfg.datastore with
    | none => simpa [resolveDatastore, hcfg] using h
    | some nm =>
      rw [hcfg] at hname
      simp [optStrTruthy, String.isEmpty_iff] at hname
      simpa [resolveDatastore, hcfg, hname] using h
  unfold defaultDatastore at hdef
  cases hm : maxByFreeSpace (dc.datastoreFolderChildren.filterMap asDatastore) with
  | none => rw [hm] at hdef; cases hdef
  | some d2 =>
    rw [hm] at hdef
    injection hdef with hd
    subst hd
    exact maxByFreeSpace_spec _ d2 hm

/-- Witness for C7 on datastores with free space 10, 50, 30 GB: the
resolver picks the 50-GB one. -/
theorem default_datastore_max_free_witness :
    resolveDatastore emptyCfg c7dc = Except.ok c7ds50
    ∧ c7ds50 ∈ c7dc.datastoreFolderChildren.filterMap asDatastore
    ∧ ∀ x ∈ c7dc.datastoreFolderChildren.filterMap asDatastore,
        x.freeSpace ≤ c7ds50.freeSpace := by
  have hok : resolveDatastore emptyCfg c7dc = Except.ok c7ds50 := by rfl
  have h := default_datastore_max_free emptyCfg c7dc c7ds50 rfl hok
  exact ⟨hok, h.1, h.2⟩

/-- C9: for every found host with hardware data, the reported CPU and
memory utilization percentages equal `round(usage / total * 100, 2)`
computed from the reported usages and totals, and whenever a total is 0
the corresponding percentage is exactly 0 — the guard makes a division by
zero impossible. -/
theorem host_utilization_guarded (hosts : List HostSystem) (host_name : String)
    (host : HostSystem) (hw : HostHardware) (stats : HostPerfStats)
    (hfind : find_host hosts host_name = some host)
    (hhw : host.hardware = some hw)
    (hok : get_host_performance hosts host_name = Except.ok stats) :
    (∃ totalCpu, stats.cpu_total_mhz = some totalCpu
      ∧ stats.cpu_usage_percent
          = some (if 0 < totalCpu
                  then round2 ((stats.cpu_usage_mhz : ℚ) / (totalCpu : ℚ) * 100)
                  else 0))
    ∧ (stats.cpu_total_mhz = some 0 → stats.cpu_usage_percent = some 0)
    ∧ (∃ totalMem, stats.memory_total_mb = some totalMem
      ∧ stats.memory_usage_percent
          = some (if 0 < totalMem
                  then round2 ((stats.memory_usage_mb : ℚ) / (totalMem : ℚ) * 100)
                  else 0))
    ∧ (stats.memory_total_mb = some 0 → stats.memory_usage_percent = some 0) := by
  simp only [get_host_performance, hfind, hhw] at hok
  injection hok with hs
  subst hs
  refine ⟨⟨_, rfl, rfl⟩, ?_, ⟨_, rfl, rfl⟩, ?_⟩
  · intro h0
    injection h0 with h0
    simp only [h0]
    simp
  · intro h0
    injection h0 with h0
    simp only [h0]
    simp

/-- Witness for C9 on a host whose total CPU MHz and total memory MB are
both zero: both percentages are reported as 0. -/
theorem host_utilization_guarded_witness :
    get_host_performance demoHosts "h0" = Except.ok zeroHostStats
    ∧ zeroHostStats.cpu_usage_percent = some 0
    ∧ zeroHostStats.memory_usage_percent = some 0 := by
  have hok : get_host_performance demoHosts "h0" = Except.ok zeroHostStats := by rfl
  have h := host_utilization_guarded demoHosts "h0" zeroHost zeroHw zeroHostStats rfl rfl hok
  exact ⟨hok, h.2.1 rfl, h.2.2.2 rfl⟩

end EsxiMcp
